import Mathlib

/-!
# Event listeners of the card-game client

A shallow embedding of `client/src/context/createEventListener.js`.

* The UI sinks handed to `createEventListener` (`setShowAlert`, `navigate`,
  `setUpdateGameData`) and the imported sinks (`sparcle`, `playAudio`,
  `console.log`) are recorded as a trace of `Effect`s, in call order.
* A handler run is an `Outcome`: the effects performed so far, and the error
  raised, if one was raised (JavaScript `TypeError` on a property read of
  `undefined` or `null`).
* `walletAddress` is a JavaScript value that may be `undefined`:
  `Option String`, `none` standing for `undefined`.
* A card reference is a React ref: `current` is `null` (`none`) until the
  element is mounted; a mounted element is represented by the rectangle its
  `getBoundingClientRect()` returns.  Coordinates are exact rationals.
* The ethers provider is a map from event filter to the list of listeners
  subscribed to it.
-/

set_option autoImplicit false

namespace CardGame

/-! ## Data model -/

/-- Errors a listener can raise. -/
inductive JsError
  | typeError
  | parseError (reason : String)
  deriving DecidableEq, Repr

/-- The six contract events the client listens to. -/
inductive EventKind
  | NewPlayer
  | NewBattle
  | NewGameToken
  | BattleMove
  | RoundEnded
  | BattleEnded
  deriving DecidableEq, Repr

/-- Decoded arguments of `NewPlayer`. -/
structure NewPlayerArgs where
  owner : String
  deriving DecidableEq, Repr

/-- Decoded arguments of `NewBattle`. -/
structure NewBattleArgs where
  player1 : String
  player2 : String
  battleName : String
  deriving DecidableEq, Repr

/-- Decoded arguments of `NewGameToken`. -/
structure NewGameTokenArgs where
  owner : String
  deriving DecidableEq, Repr

/-- Decoded arguments of `BattleMove`; the listener only logs them. -/
structure BattleMoveArgs where
  values : List String
  deriving DecidableEq, Repr

/-- Decoded arguments of `RoundEnded`. -/
structure RoundEndedArgs where
  damagedPlayers : List String
  deriving DecidableEq, Repr

/-- Decoded arguments of `BattleEnded`. -/
structure BattleEndedArgs where
  winner : String
  loser : String
  deriving DecidableEq, Repr

/-- The rectangle returned by `getBoundingClientRect()`. -/
structure DOMRect where
  left : ℚ
  top : ℚ
  width : ℚ
  height : ℚ
  deriving DecidableEq

/-- A React ref to a card element: `current` is `none` while unmounted. -/
structure CardRef where
  current : Option DOMRect
  deriving DecidableEq

/-- The point handed to `sparcle`. -/
structure Coords where
  pageX : ℚ
  pageY : ℚ
  deriving DecidableEq

/-- Sound assets imported from `../assets`. -/
inductive Sound
  | defenseSound
  deriving DecidableEq, Repr

/-- A value printed by `console.log` after its label. -/
inductive LogValue
  | battleMoveArgs (args : BattleMoveArgs)
  | battleEndedArgs (args : BattleEndedArgs)
  | address (walletAddress : Option String)
  deriving DecidableEq

/-- One call of a sink, as the listener performs it. -/
inductive Effect
  | setShowAlert (status : Bool) (type : String) (message : String)
  | navigate (route : String)
  | setUpdateGameData
  | sparcle (coords : Coords)
  | playAudio (clip : Sound)
  | consoleLog (label : String) (values : List LogValue)
  deriving DecidableEq

/-- What a listener run did: the sink calls in order, and the error it raised
(`none` when it returned normally). -/
structure Outcome where
  effects : List Effect
  raised : Option JsError
  deriving DecidableEq

/-- A run that performs `effects` and returns. -/
def Outcome.ok (effects : List Effect) : Outcome := ⟨effects, none⟩

/-- A run that raises at once. -/
def Outcome.raise (e : JsError) : Outcome := ⟨[], some e⟩

/-- Statement sequencing: the second run happens only if the first returned. -/
def Outcome.andThen (o k : Outcome) : Outcome :=
  match o.raised with
  | some e => ⟨o.effects, some e⟩
  | none => ⟨o.effects ++ k.effects, k.raised⟩

/-- The UI signals of a trace: everything but the diagnostic `console.log`. -/
def isUISignal : Effect → Bool
  | .consoleLog _ _ => false
  | _ => true

/-- The UI signals a run produced, in order. -/
def uiSignals (o : Outcome) : List Effect := o.effects.filter isUISignal

/-- The refresh counter after the trace: every `setUpdateGameData` call applies
the updater `prev => prev + 1`. -/
def updateGameData (effects : List Effect) (prev : Nat) : Nat :=
  effects.foldl (fun n e => if e = Effect.setUpdateGameData then n + 1 else n) prev

/-- JavaScript `toLowerCase` on the strings the client compares (addresses:
ASCII text), mapping `A`-`Z` to `a`-`z`. -/
def toLowerCase (s : String) : String := String.mk (s.data.map Char.toLower)

/-! ## `getCoords` -/

/-- Battle card coordinates; raises when `cardRef.current` is `null`. -/
def getCoords (cardRef : CardRef) : Except JsError Coords :=
  match cardRef.current with
  | none => .error .typeError
  | some rect =>
    .ok { pageX := rect.left + rect.width / 2,
          pageY := rect.top + rect.height / 2.25 }

/-- The constant `emptyAccount`. -/
def emptyAccount : String := "0x0000000000000000000000000000000000000000"

/-! ## The six listeners -/

/-- New Player listener. -/
def newPlayerListener (walletAddress : Option String) (args : NewPlayerArgs) : Outcome :=
  if walletAddress = some args.owner then
    Outcome.ok [.setShowAlert true "success" "Player has been successfully registered"]
  else
    Outcome.ok []

/-- New Battle listener. -/
def newBattleListener (walletAddress : Option String) (args : NewBattleArgs) : Outcome :=
  match walletAddress with
  | none => Outcome.raise .typeError
  | some w =>
    (if toLowerCase w = toLowerCase args.player1 ∨
        toLowerCase w = toLowerCase args.player2 then
      Outcome.ok [.navigate ("/battle/" ++ args.battleName)]
    else
      Outcome.ok []).andThen
    (Outcome.ok [.setUpdateGameData])

/-- New Game Token listener. -/
def newGameTokenListener (walletAddress : Option String) (args : NewGameTokenArgs) : Outcome :=
  match walletAddress with
  | none => Outcome.raise .typeError
  | some w =>
    if toLowerCase w = toLowerCase args.owner then
      (Outcome.ok [.setShowAlert true "success"
          "Player game token has been successfully generated"]).andThen
      (Outcome.ok [.navigate "/create-battle"])
    else
      Outcome.ok []

/-- New Battle Move listener. -/
def battleMoveListener (args : BattleMoveArgs) : Outcome :=
  Outcome.ok [.consoleLog "Battle moved!" [.battleMoveArgs args]]

/-- The call `sparcle(getCoords(cardRef))`. -/
def sparcleAt (cardRef : CardRef) : Outcome :=
  match getCoords cardRef with
  | .error e => Outcome.raise e
  | .ok coords => Outcome.ok [.sparcle coords]

/-- The `for` loop of the Round Ended listener over `args.damagedPlayers`. -/
def roundEndedLoop (walletAddress : Option String) (player1Ref player2Ref : CardRef) :
    List String → Outcome
  | [] => Outcome.ok []
  | d :: rest =>
    (if d ≠ emptyAccount then
      if some d = walletAddress then
        sparcleAt player1Ref
      else if some d ≠ walletAddress then
        sparcleAt player2Ref
      else
        Outcome.ok []
    else
      Outcome.ok [.playAudio .defenseSound]).andThen
    (roundEndedLoop walletAddress player1Ref player2Ref rest)

/-- Round Ended listener. -/
def roundEndedListener (walletAddress : Option String) (player1Ref player2Ref : CardRef)
    (args : RoundEndedArgs) : Outcome :=
  (roundEndedLoop walletAddress player1Ref player2Ref args.damagedPlayers).andThen
  (Outcome.ok [.setUpdateGameData])

/-- Battle Ended listener. -/
def battleEndedListener (walletAddress : Option String) (args : BattleEndedArgs) : Outcome :=
  (Outcome.ok [.consoleLog "Battle ended!" [.battleEndedArgs args, .address walletAddress]]).andThen
  (match walletAddress with
   | none => Outcome.raise .typeError
   | some w =>
     (if toLowerCase w = toLowerCase args.winner then
       Outcome.ok [.setShowAlert true "success" "You Won!"]
     else if toLowerCase w = toLowerCase args.loser then
       Outcome.ok [.setShowAlert true "failure" "You Lost!"]
     else
       Outcome.ok []).andThen
     (Outcome.ok [.navigate "/create-battle"]))

/-! ## The provider, `AddNewEvent` and `createEventListener` -/

/-- Modelled from the spec: the provider/session collaborator (the ethers
provider, outside `src/`), a map from event filter to the list of listeners
subscribed to it, in subscription order. -/
structure Provider (Filter Log : Type) where
  listeners : Filter → List (Log → Outcome)

/-- Modelled from the spec: `provider.removeListener(eventFilter)` without a
listener argument clears the list of that filter. -/
def Provider.removeListener {Filter Log : Type} [DecidableEq Filter]
    (provider : Provider Filter Log) (eventFilter : Filter) : Provider Filter Log :=
  ⟨fun g => if g = eventFilter then [] else provider.listeners g⟩

/-- Modelled from the spec: `provider.on(eventFilter, listener)` appends the
listener to the list of that filter. -/
def Provider.on {Filter Log : Type} [DecidableEq Filter]
    (provider : Provider Filter Log) (eventFilter : Filter) (listener : Log → Outcome) :
    Provider Filter Log :=
  ⟨fun g => if g = eventFilter then provider.listeners g ++ [listener]
            else provider.listeners g⟩

/-- Modelled from the spec: delivery of one raw log matching `eventFilter`.
Every listener subscribed to the filter runs once on the log, each in its own
task, so an error raised by one stays in its own outcome; the subscriptions
are those of before the delivery. -/
def Provider.emit {Filter Log : Type} (provider : Provider Filter Log)
    (eventFilter : Filter) (logs : Log) : Provider Filter Log × List Outcome :=
  (provider, (provider.listeners eventFilter).map (fun listener => listener logs))

/-- The listener `AddNewEvent` subscribes: decode the raw log with
`new ethers.utils.Interface(ABI).parseLog`, then call `cb` on the result. -/
def parseAndCall {Log P : Type} (parseLog : Log → Except JsError P) (cb : P → Outcome) :
    Log → Outcome :=
  fun logs =>
    match parseLog logs with
    | .error e => Outcome.raise e
    | .ok parsedLog => cb parsedLog

/-- The function `AddNewEvent(eventFilter, provider, cb)`; the decoder of the imported
`ABI` is the extra first argument. -/
def AddNewEvent {Filter Log P : Type} [DecidableEq Filter]
    (parseLog : Log → Except JsError P) (eventFilter : Filter)
    (provider : Provider Filter Log) (cb : P → Outcome) : Provider Filter Log :=
  (provider.removeListener eventFilter).on eventFilter (parseAndCall parseLog cb)

/-- The decoder of the imported `ABI`, by event kind: a log delivered for the
filter of a kind decodes to the arguments of that kind, or decoding raises. -/
structure ABI (Log : Type) where
  parseNewPlayer : Log → Except JsError NewPlayerArgs
  parseNewBattle : Log → Except JsError NewBattleArgs
  parseNewGameToken : Log → Except JsError NewGameTokenArgs
  parseBattleMove : Log → Except JsError BattleMoveArgs
  parseRoundEnded : Log → Except JsError RoundEndedArgs
  parseBattleEnded : Log → Except JsError BattleEndedArgs

/-- The contract binding: `contract.filters.<Event>()`. -/
structure Contract (Filter : Type) where
  filters : EventKind → Filter

/-- The function `createEventListener`: the six installations, in source order. -/
def createEventListener {Filter Log : Type} [DecidableEq Filter] (abi : ABI Log)
    (contract : Contract Filter) (provider : Provider Filter Log)
    (walletAddress : Option String) (player1Ref player2Ref : CardRef) :
    Provider Filter Log :=
  let provider := AddNewEvent abi.parseNewPlayer (contract.filters .NewPlayer) provider
    (newPlayerListener walletAddress)
  let provider := AddNewEvent abi.parseNewBattle (contract.filters .NewBattle) provider
    (newBattleListener walletAddress)
  let provider := AddNewEvent abi.parseNewGameToken (contract.filters .NewGameToken) provider
    (newGameTokenListener walletAddress)
  let provider := AddNewEvent abi.parseBattleMove (contract.filters .BattleMove) provider
    battleMoveListener
  let provider := AddNewEvent abi.parseRoundEnded (contract.filters .RoundEnded) provider
    (roundEndedListener walletAddress player1Ref player2Ref)
  AddNewEvent abi.parseBattleEnded (contract.filters .BattleEnded) provider
    (battleEndedListener walletAddress)

/-- The arguments of one `createEventListener` call, the provider apart. -/
structure Session (Filter : Type) where
  contract : Contract Filter
  walletAddress : Option String
  player1Ref : CardRef
  player2Ref : CardRef

/-- Successive `createEventListener` calls on the same provider, first to last. -/
def createEventListenerCalls {Filter Log : Type} [DecidableEq Filter] (abi : ABI Log)
    (provider : Provider Filter Log) : List (Session Filter) → Provider Filter Log
  | [] => provider
  | s :: rest =>
    createEventListenerCalls abi
      (createEventListener abi s.contract provider s.walletAddress s.player1Ref s.player2Ref)
      rest

/-- What the listener a `createEventListener` call installs for `kind` does on
a raw log. -/
def installedListener {Filter Log : Type} (abi : ABI Log) (s : Session Filter) :
    EventKind → Log → Outcome
  | .NewPlayer => parseAndCall abi.parseNewPlayer (newPlayerListener s.walletAddress)
  | .NewBattle => parseAndCall abi.parseNewBattle (newBattleListener s.walletAddress)
  | .NewGameToken => parseAndCall abi.parseNewGameToken (newGameTokenListener s.walletAddress)
  | .BattleMove => parseAndCall abi.parseBattleMove battleMoveListener
  | .RoundEnded =>
    parseAndCall abi.parseRoundEnded
      (roundEndedListener s.walletAddress s.player1Ref s.player2Ref)
  | .BattleEnded => parseAndCall abi.parseBattleEnded (battleEndedListener s.walletAddress)

/-! ## Concrete inputs -/

/-- A decoded event of any of the six kinds. -/
inductive DecodedEvent
  | newPlayer (args : NewPlayerArgs)
  | newBattle (args : NewBattleArgs)
  | newGameToken (args : NewGameTokenArgs)
  | battleMove (args : BattleMoveArgs)
  | roundEnded (args : RoundEndedArgs)
  | battleEnded (args : BattleEndedArgs)
  deriving DecidableEq

/-- A decoder over raw logs that are given by their decoded content: a log of
another kind than the one asked for does not decode. -/
def exampleABI : ABI DecodedEvent where
  parseNewPlayer
    | .newPlayer args => .ok args
    | _ => .error (.parseError "no matching event")
  parseNewBattle
    | .newBattle args => .ok args
    | _ => .error (.parseError "no matching event")
  parseNewGameToken
    | .newGameToken args => .ok args
    | _ => .error (.parseError "no matching event")
  parseBattleMove
    | .battleMove args => .ok args
    | _ => .error (.parseError "no matching event")
  parseRoundEnded
    | .roundEnded args => .ok args
    | _ => .error (.parseError "no matching event")
  parseBattleEnded
    | .battleEnded args => .ok args
    | _ => .error (.parseError "no matching event")

/-- A contract whose filter for an event is the event kind itself. -/
def exampleContract : Contract EventKind := ⟨fun kind => kind⟩

/-- A provider without subscriptions. -/
def emptyProvider : Provider EventKind DecodedEvent := ⟨fun _ => []⟩

/-- A wallet address as the wallet reports it, in lower case. -/
def aliceLower : String := "0xf39fd6e51aad88f6f4ce6ab8827279cfffb92266"

/-- The same address in its mixed-case checksummed form, as decoded logs carry it. -/
def aliceChecksum : String := "0xf39Fd6e51aad88F6F4ce6aB8827279cffFb92266"

/-- Another address. -/
def bob : String := "0x70997970C51812dc3A010C7d01b50e0d17dc79C8"

/-- A mounted player-1 card: left 0, top 0, width 2, height 9. -/
def card1 : CardRef := ⟨some ⟨0, 0, 2, 9⟩⟩

/-- A mounted player-2 card: left 10, top 0, width 2, height 9. -/
def card2 : CardRef := ⟨some ⟨10, 0, 2, 9⟩⟩

/-- A card reference whose element is not mounted. -/
def unmounted : CardRef := ⟨none⟩

/-! ## Lemmas on subscriptions -/

theorem listeners_AddNewEvent_self {Filter Log P : Type} [DecidableEq Filter]
    (parseLog : Log → Except JsError P) (f : Filter) (provider : Provider Filter Log)
    (cb : P → Outcome) :
    (AddNewEvent parseLog f provider cb).listeners f = [parseAndCall parseLog cb] := by
  simp [AddNewEvent, Provider.on, Provider.removeListener]

theorem listeners_AddNewEvent_other {Filter Log P : Type} [DecidableEq Filter]
    (parseLog : Log → Except JsError P) (f g : Filter) (provider : Provider Filter Log)
    (cb : P → Outcome) (hne : g ≠ f) :
    (AddNewEvent parseLog f provider cb).listeners g = provider.listeners g := by
  simp [AddNewEvent, Provider.on, Provider.removeListener, hne]

theorem length_listeners_AddNewEvent {Filter Log P : Type} [DecidableEq Filter]
    (parseLog : Log → Except JsError P) (f g : Filter) (provider : Provider Filter Log)
    (cb : P → Outcome) (hone : (provider.listeners g).length = 1) :
    ((AddNewEvent parseLog f provider cb).listeners g).length = 1 := by
  by_cases hgf : g = f
  · subst hgf
    rw [listeners_AddNewEvent_self]
    rfl
  · rw [listeners_AddNewEvent_other parseLog f g provider cb hgf]
    exact hone

theorem createEventListenerCalls_append {Filter Log : Type} [DecidableEq Filter]
    (abi : ABI Log) (provider : Provider Filter Log) (earlier : List (Session Filter))
    (last : Session Filter) :
    createEventListenerCalls abi provider (earlier ++ [last]) =
      createEventListener abi last.contract (createEventListenerCalls abi provider earlier)
        last.walletAddress last.player1Ref last.player2Ref := by
  induction earlier generalizing provider with
  | nil => rfl
  | cons s rest ih => simpa [createEventListenerCalls] using ih _

theorem length_listeners_createEventListener {Filter Log : Type} [DecidableEq Filter]
    (abi : ABI Log) (s : Session Filter) (provider : Provider Filter Log) (kind : EventKind) :
    ((createEventListener abi s.contract provider s.walletAddress s.player1Ref
        s.player2Ref).listeners (s.contract.filters kind)).length = 1 := by
  unfold createEventListener
  cases kind <;>
    simp only [] <;>
    repeat (first
      | (rw [listeners_AddNewEvent_self]; rfl)
      | apply length_listeners_AddNewEvent)

theorem listeners_createEventListener {Filter Log : Type} [DecidableEq Filter]
    (abi : ABI Log) (s : Session Filter) (provider : Provider Filter Log) (kind : EventKind)
    (hinj : Function.Injective s.contract.filters) :
    (createEventListener abi s.contract provider s.walletAddress s.player1Ref
        s.player2Ref).listeners (s.contract.filters kind) = [installedListener abi s kind] := by
  have hne : ∀ a b : EventKind, a ≠ b → s.contract.filters a ≠ s.contract.filters b :=
    fun a b hab h => hab (hinj h)
  unfold createEventListener
  cases kind <;>
    simp only [] <;>
    repeat (first
      | (rw [listeners_AddNewEvent_self]; rfl)
      | rw [listeners_AddNewEvent_other _ _ _ _ _ (hne _ _ (by decide))])

/-! ## Lemmas on traces -/

theorem updateGameData_append (xs ys : List Effect) (prev : Nat) :
    updateGameData (xs ++ ys) prev = updateGameData ys (updateGameData xs prev) := by
  simp [updateGameData, List.foldl_append]

theorem updateGameData_of_not_mem (xs : List Effect) (prev : Nat)
    (h : Effect.setUpdateGameData ∉ xs) : updateGameData xs prev = prev := by
  induction xs generalizing prev with
  | nil => rfl
  | cons x rest ih =>
    have hx : x ≠ Effect.setUpdateGameData := fun hx => h (by simp [hx])
    have hrest : Effect.setUpdateGameData ∉ rest := fun hr => h (by simp [hr])
    simpa [updateGameData, hx] using ih prev hrest

theorem roundEndedLoop_mounted (w : String) (r1 r2 : DOMRect) (damagedPlayers : List String) :
    roundEndedLoop (some w) ⟨some r1⟩ ⟨some r2⟩ damagedPlayers =
      Outcome.ok (damagedPlayers.map (fun d =>
        if d = emptyAccount then Effect.playAudio .defenseSound
        else if d = w then
          Effect.sparcle ⟨r1.left + r1.width / 2, r1.top + r1.height / 2.25⟩
        else
          Effect.sparcle ⟨r2.left + r2.width / 2, r2.top + r2.height / 2.25⟩)) := by
  induction damagedPlayers with
  | nil => rfl
  | cons d rest ih =>
    rw [roundEndedLoop, ih]
    by_cases hz : d = emptyAccount
    · simp [hz, Outcome.andThen, Outcome.ok]
    · by_cases hw : d = w
      · subst hw
        simp [hz, sparcleAt, getCoords, Outcome.andThen, Outcome.ok]
      · simp [hz, hw, sparcleAt, getCoords, Outcome.andThen, Outcome.ok]

theorem andThen_of_raised (o k : Outcome) (e : JsError) (h : o.raised = some e) :
    o.andThen k = ⟨o.effects, some e⟩ := by
  simp [Outcome.andThen, h]

theorem roundEndedLoop_cons (w : Option String) (p1 p2 : CardRef) (d : String)
    (rest : List String) :
    roundEndedLoop w p1 p2 (d :: rest) =
      (if d = emptyAccount then Outcome.ok [Effect.playAudio .defenseSound]
       else sparcleAt (if some d = w then p1 else p2)).andThen
      (roundEndedLoop w p1 p2 rest) := by
  rw [roundEndedLoop]
  by_cases hz : d = emptyAccount
  · simp [hz]
  · by_cases hw : some d = w
    · simp [hz, hw]
    · simp [hz, hw]

theorem roundEndedLoop_undefined (p1 : CardRef) (r2 : DOMRect) (damagedPlayers : List String) :
    roundEndedLoop none p1 ⟨some r2⟩ damagedPlayers =
      Outcome.ok (damagedPlayers.map (fun d =>
        if d = emptyAccount then Effect.playAudio .defenseSound
        else Effect.sparcle ⟨r2.left + r2.width / 2, r2.top + r2.height / 2.25⟩)) := by
  induction damagedPlayers with
  | nil => rfl
  | cons d rest ih =>
    rw [roundEndedLoop_cons, ih]
    by_cases hz : d = emptyAccount
    · simp [hz, Outcome.andThen, Outcome.ok]
    · simp [hz, sparcleAt, getCoords, Outcome.andThen, Outcome.ok]

theorem roundEndedLoop_unmounted (w : Option String) (p1 p2 : CardRef)
    (damagedPlayers : List String)
    (h : ∃ d ∈ damagedPlayers,
      d ≠ emptyAccount ∧ (if some d = w then p1 else p2).current = none) :
    (roundEndedLoop w p1 p2 damagedPlayers).raised = some .typeError
    ∧ (roundEndedLoop w p1 p2 damagedPlayers).effects =
        (damagedPlayers.takeWhile (fun d =>
          decide (d = emptyAccount) || (if some d = w then p1 else p2).current.isSome)).filterMap
          (fun d =>
            if d = emptyAccount then some (Effect.playAudio .defenseSound)
            else (if some d = w then p1 else p2).current.map (fun rect =>
              Effect.sparcle ⟨rect.left + rect.width / 2, rect.top + rect.height / 2.25⟩)) := by
  induction damagedPlayers with
  | nil =>
    rcases h with ⟨d, hd, _⟩
    simp at hd
  | cons x rest ih =>
    rw [roundEndedLoop_cons]
    by_cases hz : x = emptyAccount
    · have hrest : ∃ d ∈ rest,
          d ≠ emptyAccount ∧ (if some d = w then p1 else p2).current = none := by
        rcases h with ⟨d, hd, hne, hcur⟩
        rcases List.mem_cons.mp hd with hdx | hdr
        · exact absurd (hdx ▸ hz) hne
        · exact ⟨d, hdr, hne, hcur⟩
      obtain ⟨ihr, ihe⟩ := ih hrest
      simp [hz, Outcome.andThen, Outcome.ok, ihr, ihe]
    · cases hcur : (if some x = w then p1 else p2).current with
      | none =>
        simp [hz, hcur, sparcleAt, getCoords, Outcome.andThen, Outcome.raise]
      | some rect =>
        have hrest : ∃ d ∈ rest,
            d ≠ emptyAccount ∧ (if some d = w then p1 else p2).current = none := by
          rcases h with ⟨d, hd, hne, hnone⟩
          rcases List.mem_cons.mp hd with hdx | hdr
          · subst hdx
            rw [hcur] at hnone
            cases hnone
          · exact ⟨d, hdr, hne, hnone⟩
        obtain ⟨ihr, ihe⟩ := ih hrest
        simp [hz, hcur, sparcleAt, getCoords, Outcome.andThen, Outcome.ok, ihr, ihe]

theorem not_mem_roundEndedLoop_effects (w : Option String) (p1 p2 : CardRef)
    (damagedPlayers : List String) :
    Effect.setUpdateGameData ∉ (roundEndedLoop w p1 p2 damagedPlayers).effects := by
  induction damagedPlayers with
  | nil => simp [roundEndedLoop, Outcome.ok]
  | cons x rest ih =>
    rw [roundEndedLoop_cons]
    by_cases hz : x = emptyAccount
    · simpa [hz, Outcome.andThen, Outcome.ok] using ih
    · cases hcur : (if some x = w then p1 else p2).current with
      | none => simp [hz, hcur, sparcleAt, getCoords, Outcome.andThen, Outcome.raise]
      | some rect =>
        simpa [hz, hcur, sparcleAt, getCoords, Outcome.andThen, Outcome.ok] using ih

theorem roundEndedLoop_anchors_mounted (w : String) (p1 p2 : CardRef)
    (damagedPlayers : List String)
    (h : ∀ d ∈ damagedPlayers,
      d ≠ emptyAccount → (if d = w then p1 else p2).current ≠ none) :
    ∃ cues, roundEndedLoop (some w) p1 p2 damagedPlayers = Outcome.ok cues
      ∧ List.Forall₂ (fun d cue =>
          (d = emptyAccount ∧ cue = Effect.playAudio .defenseSound)
          ∨ (d ≠ emptyAccount ∧ d = w ∧ ∃ rect, p1.current = some rect ∧
              cue = Effect.sparcle
                ⟨rect.left + rect.width / 2, rect.top + rect.height / 2.25⟩)
          ∨ (d ≠ emptyAccount ∧ d ≠ w ∧ ∃ rect, p2.current = some rect ∧
              cue = Effect.sparcle
                ⟨rect.left + rect.width / 2, rect.top + rect.height / 2.25⟩))
          damagedPlayers cues := by
  induction damagedPlayers with
  | nil => exact ⟨[], rfl, List.Forall₂.nil⟩
  | cons x rest ih =>
    obtain ⟨cues, hloop, hrel⟩ := ih (fun d hd => h d (List.mem_cons_of_mem x hd))
    rw [roundEndedLoop_cons, hloop]
    by_cases hz : x = emptyAccount
    · refine ⟨Effect.playAudio .defenseSound :: cues, ?_, List.Forall₂.cons (Or.inl ⟨hz, rfl⟩) hrel⟩
      simp [hz, Outcome.andThen, Outcome.ok]
    · have hx := h x (List.mem_cons_self x rest) hz
      by_cases hw : x = w
      · rw [if_pos hw] at hx
        obtain ⟨rect, hrect⟩ := Option.ne_none_iff_exists'.mp hx
        refine ⟨Effect.sparcle ⟨rect.left + rect.width / 2, rect.top + rect.height / 2.25⟩
          :: cues, ?_, List.Forall₂.cons (Or.inr (Or.inl ⟨hz, hw, rect, hrect, rfl⟩)) hrel⟩
        have hz2 : ¬ w = emptyAccount := hw ▸ hz
        simp [hz2, hw, hrect, sparcleAt, getCoords, Outcome.andThen, Outcome.ok]
      · rw [if_neg hw] at hx
        obtain ⟨rect, hrect⟩ := Option.ne_none_iff_exists'.mp hx
        refine ⟨Effect.sparcle ⟨rect.left + rect.width / 2, rect.top + rect.height / 2.25⟩
          :: cues, ?_, List.Forall₂.cons (Or.inr (Or.inr ⟨hz, hw, rect, hrect, rfl⟩)) hrel⟩
        simp [hz, hw, hrect, sparcleAt, getCoords, Outcome.andThen, Outcome.ok]

/-! ## The Round Ended listener -/

/-- C2, as the claim states it, fails: with the anchors not mounted and
`damagedPlayers = [aliceLower, bob]` for the session `aliceLower`, the Round
Ended listener emits no cue at all, raises a `TypeError` and does not
increment the refresh counter. -/
theorem roundEnded_cues_counterexample :
    aliceLower ≠ emptyAccount ∧ bob ≠ emptyAccount ∧ bob ≠ aliceLower
    ∧ roundEndedListener (some aliceLower) unmounted unmounted ⟨[aliceLower, bob]⟩ =
        ⟨[], some JsError.typeError⟩
    ∧ updateGameData
        (roundEndedListener (some aliceLower) unmounted unmounted
          ⟨[aliceLower, bob]⟩).effects 0 ≠ 0 + 1 := by
  decide

/-- C2 (amended): for a session address `w` and a `damagedPlayers` list in which
every non-zero entry has its anchor mounted (the player-1 reference if the
entry is `w`, the player-2 reference otherwise), the Round Ended listener
emits one cue per entry, in list order - the defense sound for the all-zero
address, a damage visual at the player-1 anchor for the session address, a
damage visual at the player-2 anchor otherwise - followed by one call of the
refresh-counter updater, and returns; the counter grows by exactly 1 whatever
the list.  With both anchors mounted this holds for every list.  For
`[emptyAccount]` that is one defense cue and no visual, mounted or not; for
`[sessionAddr, otherAddr]`, both anchors mounted, one player-1 visual, then
one player-2 visual. -/
theorem roundEnded_one_cue_per_entry (w : String) (p1 p2 : CardRef) (r1 r2 : DOMRect)
    (args : RoundEndedArgs) (other : String) (prev : Nat) :
    ((∀ d ∈ args.damagedPlayers,
        d ≠ emptyAccount → (if d = w then p1 else p2).current ≠ none) →
      (∃ cues, roundEndedListener (some w) p1 p2 args =
          Outcome.ok (cues ++ [Effect.setUpdateGameData])
        ∧ List.Forall₂ (fun d cue =>
            (d = emptyAccount ∧ cue = Effect.playAudio .defenseSound)
            ∨ (d ≠ emptyAccount ∧ d = w ∧ ∃ rect, p1.current = some rect ∧
                cue = Effect.sparcle
                  ⟨rect.left + rect.width / 2, rect.top + rect.height / 2.25⟩)
            ∨ (d ≠ emptyAccount ∧ d ≠ w ∧ ∃ rect, p2.current = some rect ∧
                cue = Effect.sparcle
                  ⟨rect.left + rect.width / 2, rect.top + rect.height / 2.25⟩))
            args.damagedPlayers cues)
      ∧ (roundEndedListener (some w) p1 p2 args).raised = none
      ∧ updateGameData (roundEndedListener (some w) p1 p2 args).effects prev = prev + 1)
    ∧ roundEndedListener (some w) ⟨some r1⟩ ⟨some r2⟩ args =
        Outcome.ok (args.damagedPlayers.map (fun d =>
          if d = emptyAccount then Effect.playAudio .defenseSound
          else if d = w then
            Effect.sparcle ⟨r1.left + r1.width / 2, r1.top + r1.height / 2.25⟩
          else
            Effect.sparcle ⟨r2.left + r2.width / 2, r2.top + r2.height / 2.25⟩)
          ++ [Effect.setUpdateGameData])
    ∧ updateGameData (roundEndedListener (some w) ⟨some r1⟩ ⟨some r2⟩ args).effects prev
        = prev + 1
    ∧ roundEndedListener (some w) p1 p2 ⟨[emptyAccount]⟩ =
        Outcome.ok [Effect.playAudio .defenseSound, Effect.setUpdateGameData]
    ∧ (w ≠ emptyAccount → other ≠ emptyAccount → other ≠ w →
        roundEndedListener (some w) ⟨some r1⟩ ⟨some r2⟩ ⟨[w, other]⟩ =
          Outcome.ok [Effect.sparcle ⟨r1.left + r1.width / 2, r1.top + r1.height / 2.25⟩,
            Effect.sparcle ⟨r2.left + r2.width / 2, r2.top + r2.height / 2.25⟩,
            Effect.setUpdateGameData]) := by
  have hmain : ∀ a : RoundEndedArgs,
      roundEndedListener (some w) ⟨some r1⟩ ⟨some r2⟩ a =
        Outcome.ok (a.damagedPlayers.map (fun d =>
          if d = emptyAccount then Effect.playAudio .defenseSound
          else if d = w then
            Effect.sparcle ⟨r1.left + r1.width / 2, r1.top + r1.height / 2.25⟩
          else
            Effect.sparcle ⟨r2.left + r2.width / 2, r2.top + r2.height / 2.25⟩)
          ++ [Effect.setUpdateGameData]) := by
    intro a
    rw [roundEndedListener, roundEndedLoop_mounted]
    rfl
  refine ⟨?_, hmain args, ?_, ?_, ?_⟩
  · intro hmounted
    obtain ⟨cues, hloop, hrel⟩ :=
      roundEndedLoop_anchors_mounted w p1 p2 args.damagedPlayers hmounted
    have hrun : roundEndedListener (some w) p1 p2 args =
        Outcome.ok (cues ++ [Effect.setUpdateGameData]) := by
      rw [roundEndedListener, hloop]
      rfl
    have hnone : Effect.setUpdateGameData ∉ cues := by
      have hnot := not_mem_roundEndedLoop_effects (some w) p1 p2 args.damagedPlayers
      rw [hloop] at hnot
      exact hnot
    refine ⟨⟨cues, hrun, hrel⟩, by rw [hrun]; rfl, ?_⟩
    rw [hrun]
    show updateGameData (cues ++ [Effect.setUpdateGameData]) prev = prev + 1
    rw [updateGameData_append, updateGameData_of_not_mem _ _ hnone]
    simp [updateGameData]
  · rw [hmain args]
    show updateGameData (_ ++ [Effect.setUpdateGameData]) prev = prev + 1
    have hnone : Effect.setUpdateGameData ∉ args.damagedPlayers.map (fun d =>
        if d = emptyAccount then Effect.playAudio .defenseSound
        else if d = w then
          Effect.sparcle ⟨r1.left + r1.width / 2, r1.top + r1.height / 2.25⟩
        else
          Effect.sparcle ⟨r2.left + r2.width / 2, r2.top + r2.height / 2.25⟩) := by
      intro hmem
      rcases List.mem_map.mp hmem with ⟨d, _, hd⟩
      split_ifs at hd
    rw [updateGameData_append, updateGameData_of_not_mem _ _ hnone]
    simp [updateGameData]
  · simp [roundEndedListener, roundEndedLoop, Outcome.andThen, Outcome.ok]
  · intro hw ho how
    rw [hmain]
    simp [hw, ho, how]

/-- Witness of C2 (amended): session `aliceLower` with the player-1 card mounted
and the player-2 anchor not mounted, on `[emptyAccount, aliceLower]`, whose
only non-zero entry needs the player-1 anchor; and, with both cards mounted,
on `[aliceLower, bob]`. -/
theorem roundEnded_one_cue_per_entry_witness :
    (∀ d ∈ [emptyAccount, aliceLower],
        d ≠ emptyAccount → (if d = aliceLower then card1 else unmounted).current ≠ none)
    ∧ (roundEndedListener (some aliceLower) card1 unmounted
        ⟨[emptyAccount, aliceLower]⟩).raised = none
    ∧ updateGameData (roundEndedListener (some aliceLower) card1 unmounted
        ⟨[emptyAccount, aliceLower]⟩).effects 0 = 0 + 1
    ∧ roundEndedListener (some aliceLower) card1 card2 ⟨[aliceLower, bob]⟩ =
      Outcome.ok [Effect.sparcle ⟨0 + 2 / 2, 0 + 9 / 2.25⟩,
        Effect.sparcle ⟨10 + 2 / 2, 0 + 9 / 2.25⟩, Effect.setUpdateGameData] :=
  ⟨by decide,
   ((roundEnded_one_cue_per_entry aliceLower card1 unmounted ⟨0, 0, 2, 9⟩ ⟨10, 0, 2, 9⟩
      ⟨[emptyAccount, aliceLower]⟩ bob 0).1 (by decide)).2.1,
   ((roundEnded_one_cue_per_entry aliceLower card1 unmounted ⟨0, 0, 2, 9⟩ ⟨10, 0, 2, 9⟩
      ⟨[emptyAccount, aliceLower]⟩ bob 0).1 (by decide)).2.2,
   (roundEnded_one_cue_per_entry aliceLower card1 card2 ⟨0, 0, 2, 9⟩ ⟨10, 0, 2, 9⟩ ⟨[]⟩ bob
      0).2.2.2.2 (by decide) (by decide) (by decide)⟩

/-! ## The Battle Ended listener -/

/-- C3: for a session address `w` and a Battle Ended event, comparing lower-cased
addresses: if `w` matches the winner the listener emits exactly one alert,
success "You Won!"; otherwise, if it matches the loser, exactly one alert,
failure "You Lost!"; if it matches neither, no alert; in all three cases it
navigates exactly once, to "/create-battle", and returns. -/
theorem battleEnded_alert_then_navigate (w : String) (args : BattleEndedArgs) :
    (toLowerCase w = toLowerCase args.winner →
      uiSignals (battleEndedListener (some w) args) =
        [Effect.setShowAlert true "success" "You Won!", Effect.navigate "/create-battle"])
    ∧ (toLowerCase w ≠ toLowerCase args.winner → toLowerCase w = toLowerCase args.loser →
      uiSignals (battleEndedListener (some w) args) =
        [Effect.setShowAlert true "failure" "You Lost!", Effect.navigate "/create-battle"])
    ∧ (toLowerCase w ≠ toLowerCase args.winner → toLowerCase w ≠ toLowerCase args.loser →
      uiSignals (battleEndedListener (some w) args) = [Effect.navigate "/create-battle"])
    ∧ (battleEndedListener (some w) args).raised = none := by
  refine ⟨?_, ?_, ?_, ?_⟩
  · intro hwin
    simp [battleEndedListener, hwin, Outcome.andThen, Outcome.ok, uiSignals, isUISignal]
  · intro hwin hlose
    have hwin2 : toLowerCase args.loser ≠ toLowerCase args.winner := hlose ▸ hwin
    simp [battleEndedListener, hwin2, hlose, Outcome.andThen, Outcome.ok, uiSignals,
      isUISignal]
  · intro hwin hlose
    simp [battleEndedListener, hwin, hlose, Outcome.andThen, Outcome.ok, uiSignals, isUISignal]
  · by_cases hwin : toLowerCase w = toLowerCase args.winner
    · simp [battleEndedListener, hwin, Outcome.andThen, Outcome.ok]
    · by_cases hlose : toLowerCase w = toLowerCase args.loser
      · have hwin2 : toLowerCase args.loser ≠ toLowerCase args.winner := hlose ▸ hwin
        simp [battleEndedListener, hwin2, hlose, Outcome.andThen, Outcome.ok]
      · simp [battleEndedListener, hwin, hlose, Outcome.andThen, Outcome.ok]

/-- Witness of C3: a lower-case session address against its checksummed form as
winner, as loser, and against another pair of addresses. -/
theorem battleEnded_alert_then_navigate_witness :
    uiSignals (battleEndedListener (some aliceLower) ⟨aliceChecksum, bob⟩) =
        [Effect.setShowAlert true "success" "You Won!", Effect.navigate "/create-battle"]
    ∧ uiSignals (battleEndedListener (some aliceLower) ⟨bob, aliceChecksum⟩) =
        [Effect.setShowAlert true "failure" "You Lost!", Effect.navigate "/create-battle"]
    ∧ uiSignals (battleEndedListener (some aliceLower) ⟨bob, bob⟩) =
        [Effect.navigate "/create-battle"] :=
  ⟨(battleEnded_alert_then_navigate aliceLower ⟨aliceChecksum, bob⟩).1 (by decide),
   (battleEnded_alert_then_navigate aliceLower ⟨bob, aliceChecksum⟩).2.1 (by decide) (by decide),
   (battleEnded_alert_then_navigate aliceLower ⟨bob, bob⟩).2.2.1 (by decide) (by decide)⟩

/-! ## The New Battle listener -/

/-- C4: for a session address `w` and a New Battle event, the listener navigates
to "/battle/" followed by the literal `battleName` exactly when `w` equals
`player1` or `player2` after lower-casing; whether or not it matches, it then
calls the refresh-counter updater once (the counter grows by exactly 1) and
returns; it emits no alert. -/
theorem newBattle_navigate_iff_participant (w : String) (args : NewBattleArgs) (prev : Nat) :
    newBattleListener (some w) args =
        Outcome.ok ((if toLowerCase w = toLowerCase args.player1 ∨
            toLowerCase w = toLowerCase args.player2
          then [Effect.navigate ("/battle/" ++ args.battleName)] else [])
          ++ [Effect.setUpdateGameData])
    ∧ ((∃ route, Effect.navigate route ∈ (newBattleListener (some w) args).effects) ↔
        (toLowerCase w = toLowerCase args.player1 ∨ toLowerCase w = toLowerCase args.player2))
    ∧ updateGameData (newBattleListener (some w) args).effects prev = prev + 1
    ∧ (∀ status type message,
        Effect.setShowAlert status type message ∉ (newBattleListener (some w) args).effects) := by
  by_cases h : toLowerCase w = toLowerCase args.player1 ∨
      toLowerCase w = toLowerCase args.player2
  · simp [newBattleListener, h, Outcome.andThen, Outcome.ok, updateGameData]
  · simp [newBattleListener, h, Outcome.andThen, Outcome.ok, updateGameData]

/-! ## The New Game Token listener -/

/-- C5, as the claim states it, fails: on a matching owner the alert carries
the message "Player game token has been successfully generated", not
"game token has been successfully generated". -/
theorem newGameToken_message_counterexample :
    toLowerCase aliceLower = toLowerCase aliceChecksum
    ∧ Effect.setShowAlert true "success" "game token has been successfully generated" ∉
        (newGameTokenListener (some aliceLower) ⟨aliceChecksum⟩).effects
    ∧ newGameTokenListener (some aliceLower) ⟨aliceChecksum⟩ =
        Outcome.ok [Effect.setShowAlert true "success"
            "Player game token has been successfully generated",
          Effect.navigate "/create-battle"] := by
  decide

/-- C5 (amended): for a session address `w` and a Game Token Minted event, if `w`
matches the owner after lower-casing the listener emits the success alert
"Player game token has been successfully generated" and then navigates to
"/create-battle"; if it does not match, it emits no alert and does not
navigate. -/
theorem newGameToken_alert_then_navigate (w : String) (args : NewGameTokenArgs) :
    (toLowerCase w = toLowerCase args.owner →
      newGameTokenListener (some w) args =
        Outcome.ok [Effect.setShowAlert true "success"
            "Player game token has been successfully generated",
          Effect.navigate "/create-battle"])
    ∧ (toLowerCase w ≠ toLowerCase args.owner →
      newGameTokenListener (some w) args = Outcome.ok []) := by
  constructor
  · intro h
    simp [newGameTokenListener, h, Outcome.andThen, Outcome.ok]
  · intro h
    simp [newGameTokenListener, h]

/-- Witness of C5 (amended): a matching owner and another owner. -/
theorem newGameToken_alert_then_navigate_witness :
    newGameTokenListener (some aliceChecksum) ⟨aliceLower⟩ =
        Outcome.ok [Effect.setShowAlert true "success"
            "Player game token has been successfully generated",
          Effect.navigate "/create-battle"]
    ∧ newGameTokenListener (some aliceChecksum) ⟨bob⟩ = Outcome.ok [] :=
  ⟨(newGameToken_alert_then_navigate aliceChecksum ⟨aliceLower⟩).1 (by decide),
   (newGameToken_alert_then_navigate aliceChecksum ⟨bob⟩).2 (by decide)⟩

/-! ## The New Player listener -/

/-- C6: for a session address `w` and a Player Registered event, the listener
emits the alert (status true, success, "Player has been successfully
registered") exactly when `owner` is the very string `w`; it emits nothing
else, so it never navigates and leaves the refresh counter as it was. -/
theorem newPlayer_alert_iff_exact_owner (w : String) (args : NewPlayerArgs) (prev : Nat) :
    newPlayerListener (some w) args =
        Outcome.ok (if args.owner = w then
          [Effect.setShowAlert true "success" "Player has been successfully registered"]
          else [])
    ∧ (Effect.setShowAlert true "success" "Player has been successfully registered" ∈
          (newPlayerListener (some w) args).effects ↔ args.owner = w)
    ∧ (∀ route, Effect.navigate route ∉ (newPlayerListener (some w) args).effects)
    ∧ updateGameData (newPlayerListener (some w) args).effects prev = prev := by
  by_cases h : args.owner = w
  · subst h
    simp [newPlayerListener, Outcome.ok, updateGameData]
  · have h2 : ¬ w = args.owner := fun e => h e.symm
    simp [newPlayerListener, h, h2, Outcome.ok, updateGameData]

/-! ## `getCoords` -/

/-- C7: over the rationals, for a mounted rectangle (left, top, width, height)
`getCoords` returns pageX = left + width/2 and pageY = top + height/2.25, which
is top + 4*height/9 and, for height > 0, lies strictly above the vertical
centre top + height/2; for (10, 20, 100, 50) it returns pageX = 60 and
pageY = 20 + 200/9, between 42.22 and 42.23. -/
theorem getCoords_mounted (left top width height : ℚ) :
    getCoords ⟨some ⟨left, top, width, height⟩⟩ =
        .ok ⟨left + width / 2, top + height / 2.25⟩
    ∧ top + height / 2.25 = top + 4 * height / 9
    ∧ (0 < height → top + height / 2.25 < top + height / 2)
    ∧ getCoords ⟨some ⟨10, 20, 100, 50⟩⟩ = .ok ⟨60, 20 + 200 / 9⟩
    ∧ (42.22 : ℚ) < 20 + 200 / 9 ∧ (20 + 200 / 9 : ℚ) < 42.23 := by
  refine ⟨rfl, ?_, ?_, ?_, ?_, ?_⟩
  · norm_num
    ring
  · intro h
    norm_num
    linarith
  · simp only [getCoords]
    norm_num
  · norm_num
  · norm_num

/-- Witness of C7 at height 50: the point is above the vertical centre. -/
theorem getCoords_mounted_witness : (20 : ℚ) + 50 / 2.25 < 20 + 50 / 2 :=
  (getCoords_mounted 10 20 100 50).2.2.1 (by norm_num)

/-! ## `AddNewEvent` -/

/-- C1: for every provider state, filter `f` and callback `cb`, after
`AddNewEvent(f, provider, cb)` exactly one listener is subscribed to `f` (the
one decoding the log and calling `cb`) and the subscriptions of every other
filter `g` are unchanged.  After installing on `f` first `cb0` and then `cb`,
one incoming log for `f` runs one listener: a log that decodes invokes `cb`
exactly once, and `cb0` not at all.  After any number of `createEventListener`
calls on the same provider, each filter of the last call has exactly one
listener, and (the filters of the six events being distinct) one incoming log
runs the listener of the last call once and none of an earlier call. -/
theorem AddNewEvent_single_subscription {Filter Log P : Type} [DecidableEq Filter]
    (abi : ABI Log) (parseLog : Log → Except JsError P) (provider : Provider Filter Log)
    (f g : Filter) (cb0 cb : P → Outcome) (logs : Log) (parsedLog : P)
    (earlier : List (Session Filter)) (last : Session Filter) (kind : EventKind) :
    (AddNewEvent parseLog f provider cb).listeners f = [parseAndCall parseLog cb]
    ∧ ((AddNewEvent parseLog f provider cb).listeners f).length = 1
    ∧ (g ≠ f → (AddNewEvent parseLog f provider cb).listeners g = provider.listeners g)
    ∧ ((AddNewEvent parseLog f (AddNewEvent parseLog f provider cb0) cb).emit f logs).2 =
        [parseAndCall parseLog cb logs]
    ∧ (parseLog logs = .ok parsedLog →
        ((AddNewEvent parseLog f (AddNewEvent parseLog f provider cb0) cb).emit f logs).2 =
          [cb parsedLog])
    ∧ ((createEventListenerCalls abi provider (earlier ++ [last])).listeners
          (last.contract.filters kind)).length = 1
    ∧ (Function.Injective last.contract.filters →
        ((createEventListenerCalls abi provider (earlier ++ [last])).emit
          (last.contract.filters kind) logs).2 = [installedListener abi last kind logs]) := by
  have htwice :
      ((AddNewEvent parseLog f (AddNewEvent parseLog f provider cb0) cb).emit f logs).2 =
        [parseAndCall parseLog cb logs] := by
    simp [Provider.emit, listeners_AddNewEvent_self]
  refine ⟨listeners_AddNewEvent_self parseLog f provider cb, ?_,
    listeners_AddNewEvent_other parseLog f g provider cb, htwice, ?_, ?_, ?_⟩
  · rw [listeners_AddNewEvent_self]
    rfl
  · intro hparse
    rw [htwice]
    simp [parseAndCall, hparse]
  · rw [createEventListenerCalls_append]
    exact length_listeners_createEventListener abi last _ kind
  · intro hinj
    rw [createEventListenerCalls_append]
    simp [Provider.emit, listeners_createEventListener abi last _ kind hinj]

/-- Witness of C1: on a provider that already went through one
`createEventListener` call for `bob`, a New Player callback is installed twice
and a New Player log delivered; and a second `createEventListener` call, for
`aliceLower`, is followed by a Battle Ended log. -/
theorem AddNewEvent_single_subscription_witness :
    EventKind.NewBattle ≠ EventKind.NewPlayer
    ∧ (AddNewEvent exampleABI.parseNewPlayer EventKind.NewPlayer
          (createEventListener exampleABI exampleContract emptyProvider (some bob) card1 card2)
          (newPlayerListener (some aliceLower))).listeners EventKind.NewBattle =
        (createEventListener exampleABI exampleContract emptyProvider (some bob) card1
          card2).listeners EventKind.NewBattle
    ∧ exampleABI.parseNewPlayer (DecodedEvent.newPlayer ⟨aliceLower⟩) = .ok ⟨aliceLower⟩
    ∧ ((AddNewEvent exampleABI.parseNewPlayer EventKind.NewPlayer
          (AddNewEvent exampleABI.parseNewPlayer EventKind.NewPlayer
            (createEventListener exampleABI exampleContract emptyProvider (some bob) card1
              card2)
            (newPlayerListener (some bob)))
          (newPlayerListener (some aliceLower))).emit EventKind.NewPlayer
            (DecodedEvent.newPlayer ⟨aliceLower⟩)).2 =
        [newPlayerListener (some aliceLower) ⟨aliceLower⟩]
    ∧ Function.Injective exampleContract.filters
    ∧ ((createEventListenerCalls exampleABI emptyProvider
          ([⟨exampleContract, some bob, card1, card2⟩] ++
            [⟨exampleContract, some aliceLower, card1, card2⟩])).emit
          (exampleContract.filters EventKind.BattleEnded)
          (DecodedEvent.battleEnded ⟨aliceChecksum, bob⟩)).2 =
        [installedListener exampleABI ⟨exampleContract, some aliceLower, card1, card2⟩
          EventKind.BattleEnded (DecodedEvent.battleEnded ⟨aliceChecksum, bob⟩)] :=
  ⟨by decide,
   (AddNewEvent_single_subscription exampleABI exampleABI.parseNewPlayer
      (createEventListener exampleABI exampleContract emptyProvider (some bob) card1 card2)
      EventKind.NewPlayer EventKind.NewBattle (newPlayerListener (some bob))
      (newPlayerListener (some aliceLower)) (DecodedEvent.newPlayer ⟨aliceLower⟩) ⟨aliceLower⟩
      [] ⟨exampleContract, some bob, card1, card2⟩ EventKind.NewPlayer).2.2.1 (by decide),
   rfl,
   (AddNewEvent_single_subscription exampleABI exampleABI.parseNewPlayer
      (createEventListener exampleABI exampleContract emptyProvider (some bob) card1 card2)
      EventKind.NewPlayer EventKind.NewBattle (newPlayerListener (some bob))
      (newPlayerListener (some aliceLower)) (DecodedEvent.newPlayer ⟨aliceLower⟩) ⟨aliceLower⟩
      [] ⟨exampleContract, some bob, card1, card2⟩ EventKind.NewPlayer).2.2.2.2.1 rfl,
   fun _ _ h => h,
   (AddNewEvent_single_subscription exampleABI exampleABI.parseNewPlayer emptyProvider
      EventKind.NewPlayer EventKind.NewBattle (newPlayerListener (some bob))
      (newPlayerListener (some aliceLower)) (DecodedEvent.battleEnded ⟨aliceChecksum, bob⟩)
      ⟨aliceLower⟩ [⟨exampleContract, some bob, card1, card2⟩]
      ⟨exampleContract, some aliceLower, card1, card2⟩ EventKind.BattleEnded).2.2.2.2.2.2
      (fun _ _ h => h)⟩

/-! ## An absent session address -/

/-- C8, as the claim states it, fails: with `walletAddress` undefined the New
Battle, New Game Token and Battle Ended listeners raise a `TypeError`; the
counter is not incremented for New Battle and no navigation happens for
Battle Ended. -/
theorem undefined_walletAddress_counterexample :
    (newBattleListener none ⟨aliceChecksum, bob, "arena"⟩).raised = some JsError.typeError
    ∧ Effect.setUpdateGameData ∉ (newBattleListener none ⟨aliceChecksum, bob, "arena"⟩).effects
    ∧ (newGameTokenListener none ⟨aliceChecksum⟩).raised = some JsError.typeError
    ∧ (battleEndedListener none ⟨aliceChecksum, bob⟩).raised = some JsError.typeError
    ∧ Effect.navigate "/create-battle" ∉
        (battleEndedListener none ⟨aliceChecksum, bob⟩).effects := by
  decide

/-- C8 (amended): with `walletAddress` undefined, the listeners that compare it
by strict equality treat it as a non-match and return: Player Registered emits
nothing, and Round Ended (player-2 anchor mounted) emits the defense cue for
every all-zero entry, a player-2 damage visual for every other entry, and then
increments the counter once.  The listeners that call `toLowerCase` on it -
New Battle, New Game Token, Battle Ended - raise a `TypeError` before emitting
any UI signal: no counter increment, no alert, no navigation. -/
theorem undefined_walletAddress_outcomes (registered : NewPlayerArgs) (started : NewBattleArgs)
    (minted : NewGameTokenArgs) (round : RoundEndedArgs) (ended : BattleEndedArgs)
    (player1Ref : CardRef) (r2 : DOMRect) :
    newPlayerListener none registered = Outcome.ok []
    ∧ roundEndedListener none player1Ref ⟨some r2⟩ round =
        Outcome.ok (round.damagedPlayers.map (fun d =>
          if d = emptyAccount then Effect.playAudio .defenseSound
          else Effect.sparcle ⟨r2.left + r2.width / 2, r2.top + r2.height / 2.25⟩)
          ++ [Effect.setUpdateGameData])
    ∧ newBattleListener none started = Outcome.raise .typeError
    ∧ newGameTokenListener none minted = Outcome.raise .typeError
    ∧ (battleEndedListener none ended).raised = some .typeError
    ∧ uiSignals (battleEndedListener none ended) = [] := by
  refine ⟨?_, ?_, rfl, rfl, rfl, rfl⟩
  · simp [newPlayerListener]
  · rw [roundEndedListener, roundEndedLoop_undefined]
    rfl

/-! ## An unmounted anchor -/

/-- C9, as the claim states it, fails: with the anchors unmounted and
`damagedPlayers = [bob]`, a non-zero address, the Round Ended listener raises a
`TypeError` and the refresh counter stays at 0. -/
theorem roundEnded_unmounted_counterexample :
    bob ≠ emptyAccount
    ∧ (roundEndedListener (some aliceLower) unmounted unmounted ⟨[bob]⟩).raised =
        some JsError.typeError
    ∧ updateGameData
        (roundEndedListener (some aliceLower) unmounted unmounted ⟨[bob]⟩).effects 0 = 0 := by
  decide

/-- C9 (amended): when `damagedPlayers` has a non-zero entry whose anchor (the
player-1 reference if the entry is the session address, the player-2 reference
otherwise) is not mounted, the Round Ended listener raises a `TypeError` at the
first such entry: it has emitted exactly the cues of the entries before it,
and it does not increment the refresh counter.  The error stays in that one
listener run: delivering the log to the provider on which the listener is
installed yields that one raising outcome and leaves the provider, and so
every listener subscription, as it was. -/
theorem roundEnded_raises_at_unmounted_anchor {Filter Log : Type} [DecidableEq Filter]
    (abi : ABI Log) (provider : Provider Filter Log) (f : Filter) (logs : Log)
    (w : Option String) (p1 p2 : CardRef) (args : RoundEndedArgs) (prev : Nat)
    (h : ∃ d ∈ args.damagedPlayers,
      d ≠ emptyAccount ∧ (if some d = w then p1 else p2).current = none) :
    (roundEndedListener w p1 p2 args).raised = some .typeError
    ∧ (roundEndedListener w p1 p2 args).effects =
        (args.damagedPlayers.takeWhile (fun d =>
          decide (d = emptyAccount) || (if some d = w then p1 else p2).current.isSome)).filterMap
          (fun d =>
            if d = emptyAccount then some (Effect.playAudio .defenseSound)
            else (if some d = w then p1 else p2).current.map (fun rect =>
              Effect.sparcle ⟨rect.left + rect.width / 2, rect.top + rect.height / 2.25⟩))
    ∧ Effect.setUpdateGameData ∉ (roundEndedListener w p1 p2 args).effects
    ∧ updateGameData (roundEndedListener w p1 p2 args).effects prev = prev
    ∧ (abi.parseRoundEnded logs = .ok args →
        (AddNewEvent abi.parseRoundEnded f provider (roundEndedListener w p1 p2)).emit f logs =
          (AddNewEvent abi.parseRoundEnded f provider (roundEndedListener w p1 p2),
            [roundEndedListener w p1 p2 args])) := by
  obtain ⟨hraised, heffects⟩ := roundEndedLoop_unmounted w p1 p2 args.damagedPlayers h
  have hrun : roundEndedListener w p1 p2 args =
      ⟨(roundEndedLoop w p1 p2 args.damagedPlayers).effects, some .typeError⟩ := by
    rw [roundEndedListener, andThen_of_raised _ _ _ hraised]
  have hnot : Effect.setUpdateGameData ∉ (roundEndedListener w p1 p2 args).effects := by
    rw [hrun]
    exact not_mem_roundEndedLoop_effects w p1 p2 args.damagedPlayers
  refine ⟨by rw [hrun], by rw [hrun]; exact heffects, hnot,
    updateGameData_of_not_mem _ _ hnot, ?_⟩
  intro hparse
  simp [Provider.emit, listeners_AddNewEvent_self, parseAndCall, hparse]

/-- Witness of C9 (amended): session `aliceLower`, player-1 card mounted,
player-2 anchor unmounted, `damagedPlayers = [emptyAccount, bob]`, the listener
installed on the example provider. -/
theorem roundEnded_raises_at_unmounted_anchor_witness :
    (∃ d ∈ [emptyAccount, bob],
      d ≠ emptyAccount ∧ (if some d = some aliceLower then card1 else unmounted).current = none)
    ∧ (roundEndedListener (some aliceLower) card1 unmounted ⟨[emptyAccount, bob]⟩).raised =
        some JsError.typeError
    ∧ exampleABI.parseRoundEnded (DecodedEvent.roundEnded ⟨[emptyAccount, bob]⟩) =
        .ok ⟨[emptyAccount, bob]⟩
    ∧ (AddNewEvent exampleABI.parseRoundEnded EventKind.RoundEnded emptyProvider
          (roundEndedListener (some aliceLower) card1 unmounted)).emit EventKind.RoundEnded
          (DecodedEvent.roundEnded ⟨[emptyAccount, bob]⟩) =
        (AddNewEvent exampleABI.parseRoundEnded EventKind.RoundEnded emptyProvider
          (roundEndedListener (some aliceLower) card1 unmounted),
          [roundEndedListener (some aliceLower) card1 unmounted ⟨[emptyAccount, bob]⟩]) :=
  ⟨⟨bob, by decide, by decide, by decide⟩,
   (roundEnded_raises_at_unmounted_anchor exampleABI emptyProvider EventKind.RoundEnded
      (DecodedEvent.roundEnded ⟨[emptyAccount, bob]⟩) (some aliceLower) card1 unmounted
      ⟨[emptyAccount, bob]⟩ 0 ⟨bob, by decide, by decide, by decide⟩).1,
   rfl,
   (roundEnded_raises_at_unmounted_anchor exampleABI emptyProvider EventKind.RoundEnded
      (DecodedEvent.roundEnded ⟨[emptyAccount, bob]⟩) (some aliceLower) card1 unmounted
      ⟨[emptyAccount, bob]⟩ 0 ⟨bob, by decide, by decide, by decide⟩).2.2.2.2 rfl⟩

/-! ## Letter case of the session address -/

/-- C10 at the failing input: `aliceLower` and `aliceChecksum` differ only in
letter case, yet for a Player Registered event with owner `aliceChecksum` the
listener alerts for the session `aliceChecksum` and stays silent for the
session `aliceLower`, and for a Round Ended event with
`damagedPlayers = [aliceChecksum]` the damage visual is at the player-1 anchor
for the session `aliceChecksum` and at the player-2 anchor for the session
`aliceLower`. -/
theorem session_letter_case_changes_signals :
    toLowerCase aliceLower = toLowerCase aliceChecksum
    ∧ uiSignals (newPlayerListener (some aliceChecksum) ⟨aliceChecksum⟩) =
        [Effect.setShowAlert true "success" "Player has been successfully registered"]
    ∧ uiSignals (newPlayerListener (some aliceLower) ⟨aliceChecksum⟩) = []
    ∧ uiSignals (roundEndedListener (some aliceChecksum) card1 card2 ⟨[aliceChecksum]⟩) =
        [Effect.sparcle ⟨1, 4⟩, Effect.setUpdateGameData]
    ∧ uiSignals (roundEndedListener (some aliceLower) card1 card2 ⟨[aliceChecksum]⟩) =
        [Effect.sparcle ⟨11, 4⟩, Effect.setUpdateGameData] := by
  have hz : aliceChecksum ≠ emptyAccount := by decide
  have hne : aliceChecksum ≠ aliceLower := by decide
  refine ⟨by decide, by decide, by decide, ?_, ?_⟩
  · rw [roundEndedListener, card1, card2, roundEndedLoop_mounted]
    simp [hz, Outcome.andThen, Outcome.ok, uiSignals, isUISignal]
    norm_num
  · rw [roundEndedListener, card1, card2, roundEndedLoop_mounted]
    simp [hz, hne, Outcome.andThen, Outcome.ok, uiSignals, isUISignal]
    norm_num

end CardGame
